import Mathlib

/-!
Shallow embedding of the DocMate session controller (`src/App.tsx`).

The React component keeps its session state in a collection of `useState`
hooks and mutable refs; we model that as a single `AppState` record and
each handler (`startRecording`, `stopRecording`, the recognizer callbacks,
`generateClinicalNotes`, `copyToClipboard`, the one-second interval tick,
and the clipboard status-reset timeout) as a pure function on `AppState`.
External nondeterminism (microphone permission, the text-generation stream,
clipboard success) is passed in as explicit parameters.
-/

namespace DocMate

/-- State of the `MediaRecorder` ref: `mediaRecorderRef.current.state`
is `"recording"` between `start()` and `stop()`, `"inactive"` otherwise. -/
inductive MediaState
  | inactive
  | recording
deriving DecidableEq, Repr

/-- The session controller state: the seven `useState` hooks of `App`
(`isRecording`, `transcript`, `notes`, `status`, `isLoading`,
`recordingTime`, `isTranscribing`) plus the observable state of the
mutable refs: the `MediaRecorder` state, whether the one-second interval
(`intervalRef`) is live, whether the speech recognizer has been started,
and whether a `copyToClipboard` status-reset timeout is pending. -/
structure AppState where
  isRecording : Bool
  transcript : String
  notes : String
  status : String
  isLoading : Bool
  recordingTime : Nat
  isTranscribing : Bool
  mediaState : MediaState
  intervalActive : Bool
  recognizerActive : Bool
  copyTimerPending : Bool
deriving DecidableEq, Repr

/-- The initial hook values: `useState(false)`, `useState("")`,
`useState("Ready to record")`, `useState(0)`, refs null. -/
def initState : AppState :=
  { isRecording := false
    transcript := ""
    notes := ""
    status := "Ready to record"
    isLoading := false
    recordingTime := 0
    isTranscribing := false
    mediaState := MediaState.inactive
    intervalActive := false
    recognizerActive := false
    copyTimerPending := false }

/-- Static configuration applied to the recognizer in the `useEffect`
initializer: `continuous = true; interimResults = true; lang = "en-US"`. -/
structure RecognitionConfig where
  continuous : Bool
  interimResults : Bool
  lang : String
deriving DecidableEq, Repr

/-- The configuration the source sets on `recognitionRef.current`. -/
def recognitionConfig : RecognitionConfig :=
  { continuous := true, interimResults := true, lang := "en-US" }

/-- One entry of `event.results`: we record `results[i][0].transcript`
(the first alternative text, the only one the code reads) and
`results[i].isFinal`. -/
structure SpeechResult where
  transcript : String
  isFinal : Bool
deriving DecidableEq, Repr

/-- A recognizer `onresult` event: `resultIndex` and the `results` list. -/
structure SpeechEvent where
  resultIndex : Nat
  results : List SpeechResult
deriving DecidableEq, Repr

/-- The loop body of `recognitionRef.current.onresult`: starting from
`finalTranscript = ""`, iterate `i` from `event.resultIndex` to
`event.results.length - 1`, appending `transcript plus a space` for each entry
with `isFinal` true. -/
def finalTranscriptOf (e : SpeechEvent) : String :=
  (e.results.drop e.resultIndex).foldl
    (fun acc r => if r.isFinal then acc ++ r.transcript ++ " " else acc) ""

/-- `onresult` handler: `setTranscript(prev => prev + finalTranscript)`. -/
def onresult (s : AppState) (e : SpeechEvent) : AppState :=
  { s with transcript := s.transcript ++ finalTranscriptOf e }

/-- `onerror` handler: sets the error status and clears `isTranscribing`. -/
def onSpeechError (s : AppState) (err : String) : AppState :=
  { s with status := "Transcription error: " ++ err, isTranscribing := false }

/-- `onend` handler: clears `isTranscribing`, sets completion status. -/
def onSpeechEnd (s : AppState) : AppState :=
  { s with isTranscribing := false, status := "Transcription complete" }

/-- `mediaRecorderRef.current.onstop` handler: sets a status and stops
the recognizer. -/
def onRecorderStop (s : AppState) : AppState :=
  { s with status := "Recording saved. Starting transcription...",
           recognizerActive := false }

/-- `startRecording`, with the result of the `getUserMedia` permission
handshake passed in as `permission`. On success the code starts the
`MediaRecorder`, sets `isRecording = true`, resets `recordingTime`,
`transcript` and `notes`, sets the progress status, starts the recognizer
(setting `isTranscribing`), and starts the one-second interval. On
failure (the `catch` branch) it only sets the error status. -/
def startRecording (s : AppState) (permission : Bool) : AppState :=
  if permission then
    { s with mediaState := MediaState.recording
             isRecording := true
             recordingTime := 0
             transcript := ""
             notes := ""
             status := "Recording in progress..."
             recognizerActive := true
             isTranscribing := true
             intervalActive := true }
  else
    { s with status := "Error: Could not access microphone. Please check permissions." }

/-- `stopRecording`: guarded by
`mediaRecorderRef.current.state === "recording"`; when it fires it stops
the recorder, clears `isRecording`, clears the interval, stops the
recognizer and sets the processing status. Otherwise it does nothing. -/
def stopRecording (s : AppState) : AppState :=
  if s.mediaState = MediaState.recording then
    { s with mediaState := MediaState.inactive
             isRecording := false
             intervalActive := false
             recognizerActive := false
             status := "Processing recording..." }
  else s

/-- One firing of the `setInterval` callback
(`setRecordingTime(prev => prev + 1)`); it can only fire while the
interval has not been cleared. -/
def tick (s : AppState) : AppState :=
  if s.intervalActive then { s with recordingTime := s.recordingTime + 1 } else s

/-- The JavaScript `String.prototype.trim()`: remove whitespace from
both ends of the string (executable character-list model). -/
def jsTrim (s : String) : String :=
  String.mk (((s.data.dropWhile Char.isWhitespace).reverse.dropWhile
    Char.isWhitespace).reverse)

/-- Whether the Groq credential check passes: the code bails out when
`!import.meta.env.VITE_GROQ_API_KEY && !groq.apiKey` — both read the same
environment value, absent or empty meaning falsy. -/
def hasApiKey : Option String → Bool
  | Option.none => false
  | Option.some k => k ≠ ""

/-- How a generation run ends: the stream either completes normally or a
transport/service error is thrown (at open or mid-iteration). -/
inductive StreamOutcome
  | success
  | error
deriving DecidableEq, Repr

/-- Environment of one `generateClinicalNotes` call: the credential, the
sequence of `chunk.choices[0]?.delta?.content` values delivered before
the stream ends or errors (`none` models an absent field), and how the
stream ends. -/
structure GenEnv where
  apiKey : Option String
  chunks : List (Option String)
  outcome : StreamOutcome
deriving DecidableEq, Repr

/-- Folding one chunk into `notes`:
`const content = chunk.choices[0]?.delta?.content || "";`
`if (content) setNotes(prev => prev + content)`. -/
def foldChunk (notes : String) (c : Option String) : String :=
  let content := c.getD ""
  if content ≠ "" then notes ++ content else notes

/-- `generateClinicalNotes`. Returns the new state together with the
number of completion requests opened. The guards: bail out (setting only
a status) when `transcript.trim()` is empty or when no credential is
configured. Otherwise: set the progress status, `isLoading = true`,
clear `notes`, open the stream (one request), fold every delivered chunk
into `notes`, set the success status on normal completion or the error
status in `catch`, and clear `isLoading` in `finally`. -/
def generateClinicalNotes (s : AppState) (env : GenEnv) : AppState × Nat :=
  if jsTrim s.transcript = "" then
    ({ s with status := "Please record and transcribe audio first." }, 0)
  else if hasApiKey env.apiKey = false then
    ({ s with status := "Error: Please configure your Groq API key in environment variables." }, 0)
  else
    let s1 := { s with status := "Generating clinical notes...", isLoading := true, notes := "" }
    let s2 := { s1 with notes := env.chunks.foldl foldChunk s1.notes }
    let s3 :=
      match env.outcome with
      | StreamOutcome.success => { s2 with status := "Clinical notes generated successfully!" }
      | StreamOutcome.error =>
          { s2 with status := "Error generating notes. Please check your API key and try again." }
    ({ s3 with isLoading := false }, 1)

/-- `copyToClipboard(text, type)`: on clipboard-write success the `.then`
callback sets the copied status and schedules `setStatus("Ready")` after
2000 ms. The text itself does not enter the state. -/
def copyToClipboard (s : AppState) (ttype : String) (writeOk : Bool) : AppState :=
  if writeOk then
    { s with status := ttype ++ " copied to clipboard!", copyTimerPending := true }
  else s

/-- The `setTimeout` callback scheduled by `copyToClipboard`:
`() => setStatus("Ready")`, with no condition — it overwrites whatever
status is current when it fires. -/
def copyTimerFire (s : AppState) : AppState :=
  { s with status := "Ready", copyTimerPending := false }

/-- The record/stop button (`onClick={isRecording ? stopRecording :
startRecording}` with `disabled={isLoading}`): a click is a no-op while
`isLoading`, otherwise dispatches to the appropriate handler. -/
def recordButtonClick (s : AppState) (permission : Bool) : AppState :=
  if s.isLoading then s
  else if s.isRecording then stopRecording s
  else startRecording s permission

/-- Every event the controller can receive, with the external
nondeterminism each one carries. -/
inductive Event
  | startRec (permission : Bool)
  | stopRec
  | tickEv
  | speech (e : SpeechEvent)
  | speechError (err : String)
  | speechEnd
  | recorderStop
  | generate (env : GenEnv)
  | copy (ttype : String) (ok : Bool)
  | copyTimer

/-- The controller as a reducer over (state, event). -/
def step (s : AppState) : Event → AppState
  | Event.startRec p => startRecording s p
  | Event.stopRec => stopRecording s
  | Event.tickEv => tick s
  | Event.speech e => onresult s e
  | Event.speechError err => onSpeechError s err
  | Event.speechEnd => onSpeechEnd s
  | Event.recorderStop => onRecorderStop s
  | Event.generate env => (generateClinicalNotes s env).1
  | Event.copy t ok => copyToClipboard s t ok
  | Event.copyTimer => copyTimerFire s

/-- The final-entry texts of one `onresult` event, in index order: the
entries from `resultIndex` on (the entries this event delivers — entries
below `resultIndex` were delivered by earlier events) that are marked
final. -/
def finalsOf (e : SpeechEvent) : List String :=
  ((e.results.drop e.resultIndex).filter (fun r => r.isFinal)).map
    (fun r => r.transcript)

/-- Concatenation of a list of strings, used to state the
specification-side "concatenation in delivery order". -/
def joinAll : List String → String
  | [] => ""
  | a :: l => a ++ joinAll l

/-- Recursive restatement of the `onresult` loop on a list of entries:
the concatenation of `transcript ++ " "` over the final entries. -/
def finalsConcat : List SpeechResult → String
  | [] => ""
  | r :: l => if r.isFinal then r.transcript ++ " " ++ finalsConcat l else finalsConcat l

/-- A concrete `Recording` state: a fresh session just started. -/
def recState : AppState := startRecording initState true

/-- A concrete `Recording` state with a non-empty transcript: `recState`
after one final recognizer result. -/
def recStateT : AppState :=
  onresult recState { resultIndex := 0, results := [{ transcript := "chest pain", isFinal := true }] }

/-- A concrete state whose transcript is whitespace-only. -/
def wsState : AppState := { initState with transcript := "   " }

/-- A concrete `Generating` state (`isLoading` set, leftover data). -/
def genState : AppState :=
  { initState with isLoading := true, transcript := "old transcript ",
                   notes := "old note", status := "Generating clinical notes..." }

/-- A generation environment with a configured key and a stream that
completes normally. -/
def envOk : GenEnv :=
  { apiKey := Option.some "k",
    chunks := [Option.some "Subjective: ", Option.some "patient reports chest pain."],
    outcome := StreamOutcome.success }

/-- A generation environment with a configured key and a stream that
errors after one fragment. -/
def envErr : GenEnv :=
  { apiKey := Option.some "k", chunks := [Option.some "partial "],
    outcome := StreamOutcome.error }

/-- A concrete state right after a successful `copyToClipboard`. -/
def copiedState : AppState := copyToClipboard initState "Transcript" true

/-- `copiedState` after a later status update (a recording was started
inside the 2-second window, superseding the copied message). -/
def supersededState : AppState := startRecording copiedState true

/-! ## Helper lemmas -/

theorem joinAll_append (l₁ l₂ : List String) :
    joinAll (l₁ ++ l₂) = joinAll l₁ ++ joinAll l₂ := by
  induction l₁ with
  | nil => simp [joinAll, String.empty_append]
  | cons a l ih => simp [joinAll, ih, String.append_assoc]

theorem foldl_finalsConcat (l : List SpeechResult) (acc : String) :
    l.foldl (fun a r => if r.isFinal then a ++ r.transcript ++ " " else a) acc
      = acc ++ finalsConcat l := by
  induction l generalizing acc with
  | nil => simp [finalsConcat, String.append_empty]
  | cons r rs ih =>
      rw [List.foldl_cons]
      by_cases hf : r.isFinal = true
      · rw [if_pos hf, ih]
        have hc : finalsConcat (r :: rs) = r.transcript ++ " " ++ finalsConcat rs := by
          simp [finalsConcat, hf]
        rw [hc]
        simp only [String.append_assoc]
      · rw [if_neg hf, ih]
        have hc : finalsConcat (r :: rs) = finalsConcat rs := by
          simp [finalsConcat, hf]
        rw [hc]

theorem finalsConcat_eq_joinAll (l : List SpeechResult) :
    finalsConcat l
      = joinAll ((l.filter (fun r => r.isFinal)).map (fun r => r.transcript ++ " ")) := by
  induction l with
  | nil => rfl
  | cons r rs ih =>
      by_cases hf : r.isFinal = true
      · simp [finalsConcat, hf, List.filter_cons, joinAll, ih]
      · simp [finalsConcat, hf, List.filter_cons, joinAll, ih]

theorem finalTranscriptOf_eq (e : SpeechEvent) :
    finalTranscriptOf e = joinAll ((finalsOf e).map (fun t => t ++ " ")) := by
  unfold finalTranscriptOf finalsOf
  rw [foldl_finalsConcat, String.empty_append, finalsConcat_eq_joinAll, List.map_map]
  rfl

theorem foldSpeech_transcript (events : List SpeechEvent) (s : AppState) :
    ((events.map Event.speech).foldl step s).transcript
      = s.transcript
          ++ joinAll (((events.map finalsOf).flatten).map (fun t => t ++ " ")) := by
  induction events generalizing s with
  | nil => simp [joinAll, String.append_empty]
  | cons e es ih =>
      simp only [List.map_cons, List.foldl_cons, List.flatten_cons]
      rw [ih]
      show (onresult s e).transcript ++ _ = _
      rw [show (onresult s e).transcript = s.transcript ++ finalTranscriptOf e from rfl]
      rw [finalTranscriptOf_eq, List.map_append, joinAll_append, String.append_assoc]

theorem foldChunk_eq (n : String) (c : Option String) :
    foldChunk n c = n ++ c.getD "" := by
  unfold foldChunk
  by_cases h : c.getD "" = ""
  · simp [h, String.append_empty]
  · simp [h]

theorem foldChunks_eq (chunks : List (Option String)) (n : String) :
    chunks.foldl foldChunk n = n ++ joinAll (chunks.map (fun c => c.getD "")) := by
  induction chunks generalizing n with
  | nil => simp [joinAll, String.append_empty]
  | cons c cs ih =>
      rw [List.foldl_cons, foldChunk_eq, ih]
      show _ = n ++ (c.getD "" ++ joinAll (cs.map (fun c => c.getD "")))
      rw [String.append_assoc]

/-! ## Claim theorems -/

/-- Claim C1: for every sequence of recognizer result events delivered
during one recording session (a session freshly started by a successful
`startRecording`), the transcript after folding them is the
concatenation, in delivery order, of the text of every delivered entry
marked final, each followed by a single trailing space, with every
non-final entry excluded, however interim entries interleave with final
ones. -/
theorem transcript_is_concat_of_finals (s : AppState) (events : List SpeechEvent) :
    ((events.map Event.speech).foldl step (startRecording s true)).transcript
      = joinAll (((events.map finalsOf).flatten).map (fun t => t ++ " ")) := by
  rw [foldSpeech_transcript]
  show "" ++ _ = _
  rw [String.empty_append]

/-- Claim C2, counterexample. The claim says `generateNote()` is a no-op
— all state unchanged and no network call — whenever a precondition
fails. The code refutes it twice over: (1) called in a Recording state
with a non-empty transcript and a configured key, the function performs
no Recording check and opens the completion request (one network call);
(2) on the guarded empty-transcript path the StatusMessage still
changes, so state is not unchanged. -/
theorem generate_preconditions_counterexample :
    recStateT.isRecording = true
  ∧ (generateClinicalNotes recStateT envOk).2 = 1
  ∧ jsTrim wsState.transcript = ""
  ∧ (generateClinicalNotes wsState envOk).1.status ≠ wsState.status := by
  refine ⟨rfl, ?_, ?_, ?_⟩
  · decide
  · decide
  · decide

/-- Claim C2, amended: when the Transcript is trim-empty (whitespace-only
counts as empty) or no API credential is configured,
`generateClinicalNotes` opens no network request and leaves every state
component except the StatusMessage unchanged (it sets an explanatory
StatusMessage); the Recording precondition is enforced only by the
presentation layer (the generate button is disabled while recording),
not inside the function. -/
theorem generate_guard_noop (s : AppState) (env : GenEnv)
    (h : jsTrim s.transcript = "" ∨ hasApiKey env.apiKey = false) :
    (generateClinicalNotes s env).2 = 0
  ∧ (generateClinicalNotes s env).1
      = { s with status := (generateClinicalNotes s env).1.status } := by
  unfold generateClinicalNotes
  rcases h with h | h
  · simp [h]
  · by_cases ht : jsTrim s.transcript = ""
    · simp [ht]
    · simp [ht, h]

/-- Witness for `generate_guard_noop` at the whitespace-transcript state. -/
theorem generate_guard_noop_witness :
    (generateClinicalNotes wsState envOk).2 = 0
  ∧ (generateClinicalNotes wsState envOk).1
      = { wsState with status := (generateClinicalNotes wsState envOk).1.status } :=
  generate_guard_noop wsState envOk (Or.inl (by decide))

/-- Claim C3: a generation run that completes successfully leaves
GeneratedNote equal to the concatenation of every fragment delivered by
the stream, in delivery order, with nothing dropped, duplicated or
reordered; exactly one request is opened, the loading flag ends cleared
(the `Done` state) and the success StatusMessage is set. -/
theorem generate_success_concat (s : AppState) (env : GenEnv)
    (hT : ¬ jsTrim s.transcript = "") (hK : hasApiKey env.apiKey = true)
    (hOut : env.outcome = StreamOutcome.success) :
    (generateClinicalNotes s env).1.notes = joinAll (env.chunks.map (fun c => c.getD ""))
  ∧ (generateClinicalNotes s env).2 = 1
  ∧ (generateClinicalNotes s env).1.isLoading = false
  ∧ (generateClinicalNotes s env).1.status = "Clinical notes generated successfully!" := by
  rcases env with ⟨key, chunks, outcome⟩
  cases hOut
  unfold generateClinicalNotes
  rw [if_neg hT, if_neg (by simp [hK])]
  refine ⟨?_, rfl, rfl, rfl⟩
  show chunks.foldl foldChunk "" = _
  rw [foldChunks_eq, String.empty_append]

/-- Witness for `generate_success_concat`: the concrete Recording-built
state with transcript `"chest pain "` and the two-fragment stream. -/
theorem generate_success_concat_witness :
    (generateClinicalNotes recStateT envOk).1.notes
        = joinAll (envOk.chunks.map (fun c => c.getD ""))
  ∧ (generateClinicalNotes recStateT envOk).2 = 1
  ∧ (generateClinicalNotes recStateT envOk).1.isLoading = false
  ∧ (generateClinicalNotes recStateT envOk).1.status
        = "Clinical notes generated successfully!" :=
  generate_success_concat recStateT envOk (by decide) (by decide) rfl

/-- Claim C4: a transport or service error mid-stream leaves
GeneratedNote equal to the concatenation of exactly the fragments
received before the error (not reset to empty), clears the loading flag
(the session reaches `Done`), sets the error StatusMessage, and opens no
second request (no retry). -/
theorem generate_error_preserves_partial (s : AppState) (env : GenEnv)
    (hT : ¬ jsTrim s.transcript = "") (hK : hasApiKey env.apiKey = true)
    (hOut : env.outcome = StreamOutcome.error) :
    (generateClinicalNotes s env).1.notes = joinAll (env.chunks.map (fun c => c.getD ""))
  ∧ (generateClinicalNotes s env).2 = 1
  ∧ (generateClinicalNotes s env).1.isLoading = false
  ∧ (generateClinicalNotes s env).1.status
        = "Error generating notes. Please check your API key and try again." := by
  rcases env with ⟨key, chunks, outcome⟩
  cases hOut
  unfold generateClinicalNotes
  rw [if_neg hT, if_neg (by simp [hK])]
  refine ⟨?_, rfl, rfl, rfl⟩
  show chunks.foldl foldChunk "" = _
  rw [foldChunks_eq, String.empty_append]

/-- Witness for `generate_error_preserves_partial`: a stream that fails
after delivering one fragment keeps that fragment in the note. -/
theorem generate_error_preserves_partial_witness :
    (generateClinicalNotes recStateT envErr).1.notes
        = joinAll (envErr.chunks.map (fun c => c.getD ""))
  ∧ (generateClinicalNotes recStateT envErr).2 = 1
  ∧ (generateClinicalNotes recStateT envErr).1.isLoading = false
  ∧ (generateClinicalNotes recStateT envErr).1.status
        = "Error generating notes. Please check your API key and try again." :=
  generate_error_preserves_partial recStateT envErr (by decide) (by decide) rfl

theorem generate_keeps_timer_fields (s : AppState) (env : GenEnv) :
    (generateClinicalNotes s env).1.recordingTime = s.recordingTime
  ∧ (generateClinicalNotes s env).1.intervalActive = s.intervalActive := by
  rcases env with ⟨k, ch, o⟩
  unfold generateClinicalNotes
  by_cases h1 : jsTrim s.transcript = ""
  · simp [h1]
  · by_cases h2 : hasApiKey k = false
    · simp [h1, h2]
    · cases o <;> simp [h1, h2]

theorem step_preserves_frozen (s : AppState) (e : Event)
    (hI : s.intervalActive = false) (hNotStart : ∀ p, e ≠ Event.startRec p) :
    (step s e).recordingTime = s.recordingTime
  ∧ (step s e).intervalActive = false := by
  cases e with
  | startRec p => exact absurd rfl (hNotStart p)
  | stopRec =>
      constructor
      · show (stopRecording s).recordingTime = s.recordingTime
        unfold stopRecording
        split
        · rfl
        · rfl
      · show (stopRecording s).intervalActive = false
        unfold stopRecording
        split
        · rfl
        · exact hI
  | tickEv => constructor <;> simp [step, tick, hI]
  | speech e => exact ⟨rfl, hI⟩
  | speechError err => exact ⟨rfl, hI⟩
  | speechEnd => exact ⟨rfl, hI⟩
  | recorderStop => exact ⟨rfl, hI⟩
  | generate env =>
      obtain ⟨h1, h2⟩ := generate_keeps_timer_fields s env
      exact ⟨h1, h2.trans hI⟩
  | copy t ok =>
      constructor
      · show (copyToClipboard s t ok).recordingTime = s.recordingTime
        unfold copyToClipboard
        split
        · rfl
        · rfl
      · show (copyToClipboard s t ok).intervalActive = false
        unfold copyToClipboard
        split
        · exact hI
        · exact hI
  | copyTimer => exact ⟨rfl, hI⟩

theorem frozen_fold (evs : List Event) (s : AppState)
    (hI : s.intervalActive = false)
    (hNoStart : ∀ p, Event.startRec p ∉ evs) :
    (evs.foldl step s).recordingTime = s.recordingTime
  ∧ (evs.foldl step s).intervalActive = false := by
  induction evs generalizing s with
  | nil => exact ⟨rfl, hI⟩
  | cons e evs ih =>
      have hne : ∀ p, e ≠ Event.startRec p := by
        intro p hp
        refine hNoStart p ?_
        rw [← hp]
        exact List.mem_cons_self e evs
      obtain ⟨h1, h2⟩ := step_preserves_frozen s e hI hne
      have hNo : ∀ p, Event.startRec p ∉ evs := fun p hp =>
        hNoStart p (List.mem_cons_of_mem e hp)
      obtain ⟨a, b⟩ := ih (step s e) h2 hNo
      constructor
      · rw [List.foldl_cons, a, h1]
      · rw [List.foldl_cons]
        exact b

/-- Claim C5: calling `stopRecording` while the session is Recording
(the `MediaRecorder` is in its recording state) always leaves a state
that is not Recording, the one-second tick counter never advances again
under any later events short of starting a new recording, and a second
`stopRecording` is a no-op (stops stay stopped). -/
theorem stopRecording_stops (s : AppState)
    (h : s.isRecording = true) (hm : s.mediaState = MediaState.recording) :
    (stopRecording s).isRecording = false
  ∧ (∀ evs : List Event, (∀ p, Event.startRec p ∉ evs) →
       (evs.foldl step (stopRecording s)).recordingTime
         = (stopRecording s).recordingTime)
  ∧ stopRecording (stopRecording s) = stopRecording s := by
  have hstop : (stopRecording s).intervalActive = false := by
    simp [stopRecording, hm]
  refine ⟨?_, ?_, ?_⟩
  · simp [stopRecording, hm]
  · intro evs hNo
    exact (frozen_fold evs (stopRecording s) hstop hNo).1
  · simp [stopRecording, hm]

/-- Witness for `stopRecording_stops` at a freshly started recording. -/
theorem stopRecording_stops_witness :
    (stopRecording recState).isRecording = false
  ∧ (∀ evs : List Event, (∀ p, Event.startRec p ∉ evs) →
       (evs.foldl step (stopRecording recState)).recordingTime
         = (stopRecording recState).recordingTime)
  ∧ stopRecording (stopRecording recState) = stopRecording recState :=
  stopRecording_stops recState rfl rfl

/-- Claim C6, counterexample. The claim says `startRecording()` invoked
while a note is Generating is a no-op leaving all state unchanged. The
function itself performs no Generating check: invoked on a concrete
`isLoading` state with permission granted, it changes the state (starts a
recording and wipes the transcript and note). -/
theorem start_during_generating_counterexample :
    genState.isLoading = true ∧ startRecording genState true ≠ genState := by
  refine ⟨rfl, ?_⟩
  decide

/-- Claim C6, amended: the refusal is enforced by the presentation layer,
not inside `startRecording` — while `isLoading` the record button is
disabled, so a click is a no-op leaving all state unchanged until the
generation resolves; `startRecording` itself checks nothing and would
proceed if invoked directly. -/
theorem recordButton_noop_while_generating (s : AppState) (p : Bool)
    (h : s.isLoading = true) :
    recordButtonClick s p = s := by
  unfold recordButtonClick
  rw [if_pos h]

/-- Witness for `recordButton_noop_while_generating` at the concrete
Generating state. -/
theorem recordButton_noop_while_generating_witness :
    recordButtonClick genState true = genState :=
  recordButton_noop_while_generating genState true rfl

/-- Claim C7: when the capture-permission request fails, the session
stays Idle (`isRecording` remains false), the error StatusMessage is
set, and the speech recognizer is not started (its started flag and
`isTranscribing` are untouched). -/
theorem start_permission_failure (s : AppState) (h : s.isRecording = false) :
    (startRecording s false).isRecording = false
  ∧ (startRecording s false).status
      = "Error: Could not access microphone. Please check permissions."
  ∧ (startRecording s false).recognizerActive = s.recognizerActive
  ∧ (startRecording s false).isTranscribing = s.isTranscribing :=
  ⟨h, rfl, rfl, rfl⟩

/-- Witness for `start_permission_failure` at the initial Idle state. -/
theorem start_permission_failure_witness :
    (startRecording initState false).isRecording = false
  ∧ (startRecording initState false).status
      = "Error: Could not access microphone. Please check permissions."
  ∧ (startRecording initState false).recognizerActive = initState.recognizerActive
  ∧ (startRecording initState false).isTranscribing = initState.isTranscribing :=
  start_permission_failure initState rfl

/-- Claim C8: when `startRecording` obtains the capture stream it resets
the transcript and note to empty and the elapsed counter to zero, starts
the recognizer (configured continuous with interim results), starts the
one-second tick, and transitions the session to Recording. -/
theorem start_success_resets (s : AppState) :
    (startRecording s true).transcript = ""
  ∧ (startRecording s true).notes = ""
  ∧ (startRecording s true).recordingTime = 0
  ∧ (startRecording s true).isRecording = true
  ∧ (startRecording s true).recognizerActive = true
  ∧ (startRecording s true).isTranscribing = true
  ∧ (startRecording s true).intervalActive = true
  ∧ (startRecording s true).mediaState = MediaState.recording
  ∧ (startRecording s true).status = "Recording in progress..."
  ∧ recognitionConfig.continuous = true
  ∧ recognitionConfig.interimResults = true :=
  ⟨rfl, rfl, rfl, rfl, rfl, rfl, rfl, rfl, rfl, rfl, rfl⟩

/-- Claim C9, counterexample. The claim says the 2-second revert to
"Ready" must not overwrite a later status update. In the code the
timeout callback sets "Ready" unconditionally: after a successful copy,
a recording started inside the window sets the progress status, and the
timer firing still overwrites it with "Ready". -/
theorem copy_timer_overwrites_counterexample :
    copiedState.status = "Transcript copied to clipboard!"
  ∧ supersededState.status = "Recording in progress..."
  ∧ (copyTimerFire supersededState).status = "Ready"
  ∧ (copyTimerFire supersededState).status ≠ supersededState.status := by
  refine ⟨rfl, rfl, rfl, ?_⟩
  decide

/-- Claim C9, amended: after a successful `copyToClipboard` the
StatusMessage becomes the copied-confirmation message, and the scheduled
2-second timeout sets it to "Ready" unconditionally when it fires — even
when a later status update has superseded the copied message in the
meantime, the later status is overwritten by "Ready". -/
theorem copy_sets_status_timer_resets (s : AppState) (ttype : String) :
    (copyToClipboard s ttype true).status = ttype ++ " copied to clipboard!"
  ∧ ∀ s2 : AppState, (copyTimerFire s2).status = "Ready" :=
  ⟨rfl, fun _ => rfl⟩

/-- Claim C10: a failed capture-permission request preserves the
previously accumulated transcript, note and elapsed seconds — the reset
happens only on the success path, so a failed restart never destroys the
prior session data. -/
theorem start_failure_preserves_data (s : AppState) :
    (startRecording s false).transcript = s.transcript
  ∧ (startRecording s false).notes = s.notes
  ∧ (startRecording s false).recordingTime = s.recordingTime :=
  ⟨rfl, rfl, rfl⟩

end DocMate
